import Mathlib

/-!
Verification of the `todo` command-line task tracker.

This file gives a shallow embedding of the canonical implementation
(`src/todo/task.py` and the registry-based subcommands under
`src/todo/commands/`), and proves or refutes the specified properties.

Modelling conventions:
* The sqlite `task` table is a `List Row` of raw column values; SQL
  statements issued by the subcommands are embedded as the corresponding
  list operations (UPDATE is a `map`, point SELECT is `find?`, DELETE is
  a `filter`, WHERE/ORDER BY of the listing query are `filter` and a sort
  with the query's lexicographic comparator).
* Timestamps are epoch values, modelled as `Int`.  Local-timezone
  rendering (`datetime.fromtimestamp(..., tzlocal()).strftime(...)`) is
  environment-dependent and irrelevant to the claims, so formatting is an
  explicit parameter `fmt : Int → String` of the operations that print a
  task.
* Fallible code is embedded in `Except`: an unhandled Python exception
  (TypeError / ValueError) is an `error` value.
* Writes to the two output streams are collected as explicit lists; a
  JSON dump of a task dictionary is recorded as the structured dictionary
  it serializes.
-/

namespace Todo

/-- Importance of a task (`task.py`, `class Priority`). -/
inductive Priority
| LOW
| MEDIUM
| HIGH
deriving DecidableEq, Repr

/-- The integer value of a `Priority` member (the Python enum `value`). -/
def Priority.val : Priority → Int
| .LOW => 0
| .MEDIUM => 1
| .HIGH => 2

/-- Python enum construction `Priority(v)`: succeeds exactly for 0, 1, 2 and
raises `ValueError` (here: `none`) otherwise. -/
def Priority.ofInt (v : Int) : Option Priority :=
  if v = 0 then some .LOW
  else if v = 1 then some .MEDIUM
  else if v = 2 then some .HIGH
  else none

/-- The Python enum member name `Priority(v).name`. -/
def Priority.name : Priority → String
| .LOW => "LOW"
| .MEDIUM => "MEDIUM"
| .HIGH => "HIGH"

/-- Current state of a task (`task.py`, `class Status`). -/
inductive Status
| PENDING
| ACTIVE
| COMPLETED
deriving DecidableEq, Repr

/-- The integer value of a `Status` member (the Python enum `value`). -/
def Status.val : Status → Int
| .PENDING => 0
| .ACTIVE => 1
| .COMPLETED => 2

/-- Python enum construction `Status(v)`: succeeds exactly for 0, 1, 2 and
raises `ValueError` (here: `none`) otherwise. -/
def Status.ofInt (v : Int) : Option Status :=
  if v = 0 then some .PENDING
  else if v = 1 then some .ACTIVE
  else if v = 2 then some .COMPLETED
  else none

/-- The Python enum member name `Status(v).name`. -/
def Status.name : Status → String
| .PENDING => "PENDING"
| .ACTIVE => "ACTIVE"
| .COMPLETED => "COMPLETED"

/-- Failure of validated model construction: the `ValueError` raised by the
enum constructors inside `Task.from_data` (the spec's `ValidationError`). -/
inductive ValidationError
| invalidPriority (value : Int)
| invalidStatus (value : Int)
deriving DecidableEq, Repr

/-- One task as constructed by the model layer (`task.py`, `class Task`). -/
structure Task where
  id : Int
  title : String
  priority : Priority
  status : Status
  created_at : Int
  updated_at : Int
deriving DecidableEq, Repr

/-- Validated construction from raw storage fields (`Task.from_data`):
`Priority(priority)` and `Status(status)` raise on out-of-range integers. -/
def Task.from_data (id : Int) (title : String) (priority : Int) (status : Int)
    (created_at : Int) (updated_at : Int) : Except ValidationError Task :=
  match Priority.ofInt priority with
  | none => .error (.invalidPriority priority)
  | some p =>
    match Status.ofInt status with
    | none => .error (.invalidStatus status)
    | some s => .ok ⟨id, title, p, s, created_at, updated_at⟩

/-- A JSON-able dictionary value (`Task.as_dict` mixes ints and strings). -/
inductive JsonValue
| int (value : Int)
| str (value : String)
deriving DecidableEq, Repr

/-- Structured form of a task (`Task.as_dict`): an ordered mapping whose enum
fields hold the Python member `name` and whose timestamp fields hold the
`strftime` rendering `fmt` of the stored instants. -/
def Task.as_dict (fmt : Int → String) (t : Task) : List (String × JsonValue) :=
  [ ("id", .int t.id),
    ("title", .str t.title),
    ("priority", .str t.priority.name),
    ("status", .str t.status.name),
    ("created_at", .str (fmt t.created_at)),
    ("updated_at", .str (fmt t.updated_at)) ]

/-- One raw row of the `task` table, in the schema's column order
`id, title, priority, status, created_at, updated_at`. -/
structure Row where
  id : Int
  title : String
  priority : Int
  status : Int
  created_at : Int
  updated_at : Int
deriving DecidableEq, Repr

/-- One write to standard output: a JSON dump of a task dictionary, a JSON
dump of an array of task dictionaries, or plain text. -/
inductive OutEvent
| json (entries : List (String × JsonValue))
| jsonArray (entries : List (List (String × JsonValue)))
| text (line : String)
deriving DecidableEq, Repr

/-- Result of running a mutating subcommand: the table afterwards and the
writes made to the two streams. -/
structure CmdResult where
  store : List Row
  stdout : List OutEvent
  stderr : List String
deriving DecidableEq, Repr

/-- An unhandled Python exception escaping a subcommand's `run`. -/
inductive CrashError
| typeErrorNoneRow
| validation (e : ValidationError)
deriving DecidableEq, Repr

deriving instance DecidableEq for Except

/-- Embedding of `Complete.run` (`commands/complete.py`): UPDATE sets
`status = 2` and `updated_at = now` on every row matching the id, then the
row is fetched back and `Task.from_data(*data)` is applied to the fetch
result — which is `None` when the id matched nothing, so the star-unpacking
raises `TypeError` (`CrashError.typeErrorNoneRow`). -/
def Complete.run (now : Int) (fmt : Int → String) (id : Int) (store : List Row) :
    Except CrashError CmdResult :=
  let store2 := store.map fun r =>
    if r.id = id then { r with status := Status.COMPLETED.val, updated_at := now } else r
  match store2.find? (fun r => r.id == id) with
  | none => .error .typeErrorNoneRow
  | some row =>
    match Task.from_data row.id row.title row.priority row.status
        row.created_at row.updated_at with
    | .error e => .error (.validation e)
    | .ok task =>
      .ok ⟨store2, [.json (task.as_dict fmt)],
        ["Completed task with ID " ++ toString id ++ "\n\n"]⟩

set_option linter.unusedVariables false in
/-- Embedding of `Reopen.run` (`commands/reopen.py`): the body is the single
statement `print("Not implemented yet!")` — no store access at all. -/
def Reopen.run (id : Int) (store : List Row) : CmdResult :=
  ⟨store, [.text "Not implemented yet!\n"], []⟩

/-- Embedding of `Delete.run` (`commands/delete.py`): SELECT the row first;
if absent, report on stderr and return; otherwise build the `Task`, DELETE
the row, and print the pre-removal task as JSON. -/
def Delete.run (fmt : Int → String) (id : Int) (store : List Row) :
    Except CrashError CmdResult :=
  match store.find? (fun r => r.id == id) with
  | none => .ok ⟨store, [], ["No task with ID " ++ toString id ++ " found\n"]⟩
  | some row =>
    match Task.from_data row.id row.title row.priority row.status
        row.created_at row.updated_at with
    | .error e => .error (.validation e)
    | .ok task =>
      .ok ⟨store.filter (fun r => !(r.id == id)), [.json (task.as_dict fmt)],
        ["Deleted task with ID " ++ toString id ++ "\n\n"]⟩

/-- Modelled from the spec: the canonical `task` table's CREATE TABLE
statement is not under the source tree (only the legacy `tasks` table of the
dead `commands.py` module is), so the row produced by
`INSERT INTO task(title, priority, status)` follows the spec's store
contract: it "creates a row with current timestamp for both `created_at`
and `updated_at`" and assigns a fresh auto-increment id. -/
def insertRow (now : Int) (title : String) (priority : Int) (status : Int)
    (store : List Row) : List Row × Int :=
  let newId := (store.map Row.id).foldl max 0 + 1
  (store ++ [⟨newId, title, priority, status, now, now⟩], newId)

/-- Embedding of `Add.run` (`commands/add.py`): INSERT title/priority/status,
take `lastrowid`, fetch the row back, build the `Task`, and print it. -/
def Add.run (now : Int) (fmt : Int → String) (title : String)
    (priority : Priority) (status : Status) (store : List Row) :
    Except CrashError (CmdResult × Task) :=
  let inserted := insertRow now title priority.val status.val store
  let store2 := inserted.1
  let task_id := inserted.2
  match store2.find? (fun r => r.id == task_id) with
  | none => .error .typeErrorNoneRow
  | some row =>
    match Task.from_data row.id row.title row.priority row.status
        row.created_at row.updated_at with
    | .error e => .error (.validation e)
    | .ok task =>
      .ok (⟨store2, [.json (task.as_dict fmt)], ["Task created successfully!\n\n"]⟩, task)

/-- Sort column chosen by `--sort-by` (`commands/list.py`, `class SortBy`). -/
inductive SortBy
| ID
| PRIORITY
| STATUS
| CREATED_AT
deriving DecidableEq, Repr

/-- Value of the primary ORDER BY column for a row
(`{self.sort_by.name.lower()}` in the query of `List.run`). -/
def SortBy.key : SortBy → Row → Int
| .ID, r => r.id
| .PRIORITY, r => r.priority
| .STATUS, r => r.status
| .CREATED_AT, r => r.created_at

/-- Value of the CASE expression in the ORDER BY of `List.run`:
3 for COMPLETED rows, 1 for HIGH-priority non-completed rows, 2 otherwise. -/
def caseRank (r : Row) : Int :=
  if r.status = Status.COMPLETED.val then 3
  else if r.priority = Priority.HIGH.val ∧ r.status ≠ Status.COMPLETED.val then 1
  else 2

/-- Three-way comparison of two integer sort keys. -/
def cmpInt (a b : Int) : Ordering :=
  if a < b then .lt else if a = b then .eq else .gt

/-- Apply the query direction to one comparison: every ORDER BY term of
`List.run` carries the same `{desc}` suffix, `DESC` swapping the order. -/
def dirOrd (desc : Bool) (o : Ordering) : Ordering :=
  if desc then o.swap else o

/-- The full ORDER BY comparator of the listing query: primary key, then the
CASE tie-break, then priority, then status — each term in the direction
`desc`. -/
def rowOrd (sb : SortBy) (desc : Bool) (a b : Row) : Ordering :=
  (dirOrd desc (cmpInt (sb.key a) (sb.key b))).then
    ((dirOrd desc (cmpInt (caseRank a) (caseRank b))).then
      ((dirOrd desc (cmpInt a.priority b.priority)).then
        (dirOrd desc (cmpInt a.status b.status))))

/-- Rows in the order the listing query returns them: sorted (stably) so
that earlier rows never compare `.gt` to later ones under the query's
comparator. -/
def orderRows (sb : SortBy) (desc : Bool) (rows : List Row) : List Row :=
  rows.insertionSort fun a b => rowOrd sb desc a b ≠ .gt

/-- The `List` subcommand's request object (`commands/list.py`). -/
structure ListCmd where
  sort_by : SortBy
  reverse : Bool
  as_json : Bool
  show_all : Bool
deriving DecidableEq, Repr

/-- What one execution of the `list` subcommand produced: the request object
as it stands afterwards (its `reverse` field may have been mutated), the
direction the query used, and the rows the query returned. -/
structure ListRunOut where
  self : ListCmd
  desc : Bool
  rows : List Row
deriving DecidableEq, Repr

/-- Embedding of `List.run` (`commands/list.py`): when sorting by priority it
first executes `self.reverse = not self.reverse`, then computes the
direction from the (possibly mutated) `reverse`, filters out COMPLETED rows
unless `--all`, and sorts with the query's full comparator. -/
def ListCmd.run (cmd : ListCmd) (store : List Row) : ListRunOut :=
  let cmd2 := if cmd.sort_by = SortBy.PRIORITY
              then { cmd with reverse := !cmd.reverse } else cmd
  let desc := cmd2.reverse
  let rows := if cmd2.show_all then store
              else store.filter fun r => r.status ≠ Status.COMPLETED.val
  ⟨cmd2, desc, orderRows cmd2.sort_by desc rows⟩

/-- Column widths of `render_table` (`commands/list.py`), one definition per
local variable of the source. The ID width is two or the digit count of the
row COUNT, the text columns fold the cell lengths over the header length,
and the timestamp columns are 24 wide as soon as one row exists. -/
def width_id (tasks : List Task) : Nat := max 2 (toString tasks.length).length

/-- Title column width of `render_table`: `max(5, 5, *[len(t.title) ...])`. -/
def width_title (tasks : List Task) : Nat :=
  (tasks.map fun t => t.title.length).foldl max 5

/-- Priority column width of `render_table`. -/
def width_priority (tasks : List Task) : Nat :=
  (tasks.map fun t => t.priority.name.length).foldl max 8

/-- Status column width of `render_table`. -/
def width_status (tasks : List Task) : Nat :=
  (tasks.map fun t => t.status.name.length).foldl max 6

/-- Created-at column width of `render_table`. -/
def width_created_at (tasks : List Task) : Nat :=
  if tasks.length > 0 then 24 else 10

/-- Updated-at column width of `render_table`. -/
def width_updated_at (tasks : List Task) : Nat :=
  if tasks.length > 0 then 24 else 10

/-- Column width as the spec words it, for comparison with the code's
widths: the maximum of the header label length and the rendered length of
every cell in the column. -/
def specColWidth (header : Nat) (cells : List Nat) : Nat :=
  cells.foldl max header

/-- A fixed stand-in for the timestamp renderer, for concrete evaluations. -/
def fmt0 : Int → String := fun _ => ""

/-! Helper lemmas about folds, enum conversions and the listing order. -/

theorem init_le_foldl_max (l : List Int) (init : Int) : init ≤ l.foldl max init := by
  induction l generalizing init with
  | nil => exact le_refl _
  | cons a t ih => exact le_trans (le_max_left init a) (ih (max init a))

theorem le_foldl_max (l : List Int) : ∀ (init x : Int), x ∈ l → x ≤ l.foldl max init := by
  induction l with
  | nil =>
    intro init x hx
    cases hx
  | cons a t ih =>
    intro init x hx
    rcases List.mem_cons.mp hx with h | h
    · subst h
      exact le_trans (le_max_right init x) (init_le_foldl_max t (max init x))
    · exact ih (max init a) x h

theorem priority_ofInt_val (p : Priority) : Priority.ofInt p.val = some p := by
  cases p <;> rfl

theorem status_ofInt_val (s : Status) : Status.ofInt s.val = some s := by
  cases s <;> rfl

theorem priority_ofInt_eq_none (v : Int) (h : v < 0 ∨ 2 < v) :
    Priority.ofInt v = none := by
  unfold Priority.ofInt
  rw [if_neg (by omega), if_neg (by omega), if_neg (by omega)]

theorem status_ofInt_eq_none (v : Int) (h : v < 0 ∨ 2 < v) :
    Status.ofInt v = none := by
  unfold Status.ofInt
  rw [if_neg (by omega), if_neg (by omega), if_neg (by omega)]

theorem priority_ofInt_val_eq (v : Int) (p : Priority)
    (h : Priority.ofInt v = some p) : p.val = v := by
  unfold Priority.ofInt at h
  split at h
  · rename_i hv
    injection h with h2
    subst h2
    rw [hv]
    rfl
  · split at h
    · rename_i hv
      injection h with h2
      subst h2
      rw [hv]
      rfl
    · split at h
      · rename_i hv
        injection h with h2
        subst h2
        rw [hv]
        rfl
      · exact Option.noConfusion h

theorem status_ofInt_val_eq (v : Int) (s : Status)
    (h : Status.ofInt v = some s) : s.val = v := by
  unfold Status.ofInt at h
  split at h
  · rename_i hv
    injection h with h2
    subst h2
    rw [hv]
    rfl
  · split at h
    · rename_i hv
      injection h with h2
      subst h2
      rw [hv]
      rfl
    · split at h
      · rename_i hv
        injection h with h2
        subst h2
        rw [hv]
        rfl
      · exact Option.noConfusion h

theorem from_data_fields (id : Int) (title : String) (p s ca ua : Int) (task : Task)
    (h : Task.from_data id title p s ca ua = .ok task) :
    task.id = id ∧ task.title = title ∧ task.priority.val = p ∧
    task.status.val = s ∧ task.created_at = ca ∧ task.updated_at = ua := by
  unfold Task.from_data at h
  cases hp : Priority.ofInt p with
  | none =>
    rw [hp] at h
    exact Except.noConfusion h
  | some pp =>
    rw [hp] at h
    cases hs : Status.ofInt s with
    | none =>
      rw [hs] at h
      exact Except.noConfusion h
    | some ss =>
      rw [hs] at h
      cases h
      exact ⟨rfl, rfl, priority_ofInt_val_eq p pp hp, status_ofInt_val_eq s ss hs, rfl, rfl⟩

theorem find_fresh_id_eq_none (store : List Row) (i : Int)
    (h : ∀ r ∈ store, r.id ≠ i) :
    store.find? (fun r : Row => r.id == i) = none := by
  rw [List.find?_eq_none]
  intro r hr
  simpa using h r hr

theorem mem_orderRows (sb : SortBy) (desc : Bool) (rows : List Row) (r : Row) :
    r ∈ orderRows sb desc rows ↔ r ∈ rows := by
  unfold orderRows
  exact List.mem_insertionSort _

/-! The claims. -/

/-- C1 (code_bug): the spec requires the reopen subcommand to set the task's
status back to PENDING and refresh updated_at, but `Reopen.run` is an
unimplemented stub that only prints "Not implemented yet!": after Complete
then Reopen on task 1 the stored status is still COMPLETED (2) and the
store is exactly as Complete left it. -/
theorem reopen_leaves_status_completed :
    (Complete.run 10 fmt0 1 [⟨1, "t", 0, 0, 5, 5⟩]).toOption.map
      (fun res => ((Reopen.run 1 res.store).store, (Reopen.run 1 res.store).stdout))
      = some ([⟨1, "t", 0, 2, 5, 10⟩], [.text "Not implemented yet!\n"]) := by
  decide

/-- C2 (code_bug): invoking complete with an id matching no stored task does
not produce the specified stderr not-found report: `Complete.run` fetches
the row back after the UPDATE, the fetch yields no row, and
`Task.from_data(*data)` star-unpacks `None`, raising an unhandled
TypeError. -/
theorem complete_missing_id_crashes :
    Complete.run 100 fmt0 999 [⟨1, "t", 0, 0, 5, 5⟩]
      = .error .typeErrorNoneRow := by
  decide

/-- C3 (confirmed against the spec-modelled store): every insert performed by
the add subcommand stores the insertion time in both created_at and
updated_at of the new row, and the task fetched and returned right after
the insert carries those equal timestamps. -/
theorem add_sets_both_timestamps_to_now (now : Int) (fmt : Int → String)
    (title : String) (p : Priority) (s : Status) (store : List Row) :
    (Add.run now fmt title p s store).toOption.map
      (fun x => (x.1.store, x.2.created_at, x.2.updated_at))
      = some (store ++ [⟨(store.map Row.id).foldl max 0 + 1, title, p.val, s.val, now, now⟩],
          now, now) := by
  have hnone : store.find? (fun r : Row => r.id == (store.map Row.id).foldl max 0 + 1)
      = none := by
    refine find_fresh_id_eq_none store _ ?_
    intro r hr
    have hb := le_foldl_max (store.map Row.id) 0 r.id (List.mem_map.mpr ⟨r, hr, rfl⟩)
    omega
  unfold Add.run insertRow
  simp [hnone, List.find?, Task.from_data, priority_ofInt_val, status_ofInt_val,
    Except.toOption]

/-- C4 (counterexample): the structured (JSON) form renders the enums with
the Python member names, which are uppercase — for integer 0 the priority
entry reads "LOW", not the "Low" of the claimed display table. -/
theorem as_dict_lowercase_table_counterexample :
    Priority.ofInt 0 = some Priority.LOW ∧
    ((⟨1, "x", .LOW, .PENDING, 0, 0⟩ : Task).as_dict fmt0).lookup "priority"
      = some (.str "LOW") ∧
    ((⟨1, "x", .LOW, .PENDING, 0, 0⟩ : Task).as_dict fmt0).lookup "priority"
      ≠ some (.str "Low") := by
  decide

/-- C4 (corrected): for each valid integer 0, 1, 2 construction round-trips
integer → enum → Python member name to the uppercase table
{0:"LOW"/"PENDING", 1:"MEDIUM"/"ACTIVE", 2:"HIGH"/"COMPLETED"}, and that
member name is exactly what the structured (JSON) form carries in its
"priority" and "status" entries. -/
theorem enum_roundtrip_uppercase_names :
    (∀ (fmt : Int → String) (t : Task),
      (t.as_dict fmt).lookup "priority" = some (.str t.priority.name) ∧
      (t.as_dict fmt).lookup "status" = some (.str t.status.name)) ∧
    Priority.ofInt 0 = some Priority.LOW ∧ Priority.LOW.name = "LOW" ∧
    Priority.ofInt 1 = some Priority.MEDIUM ∧ Priority.MEDIUM.name = "MEDIUM" ∧
    Priority.ofInt 2 = some Priority.HIGH ∧ Priority.HIGH.name = "HIGH" ∧
    Status.ofInt 0 = some Status.PENDING ∧ Status.PENDING.name = "PENDING" ∧
    Status.ofInt 1 = some Status.ACTIVE ∧ Status.ACTIVE.name = "ACTIVE" ∧
    Status.ofInt 2 = some Status.COMPLETED ∧ Status.COMPLETED.name = "COMPLETED" :=
  ⟨fun _ _ => ⟨rfl, rfl⟩, by decide⟩

/-- C5 (counterexample): with sort key created_at and direction DESC the
whole ORDER BY — the CASE tie-break included — runs inverted: on two rows
tied on created_at, the listing query returns the COMPLETED row first
instead of pushing it to the end. -/
theorem tiebreak_inverted_under_desc :
    (ListCmd.run ⟨.CREATED_AT, true, false, true⟩
        [⟨2, "todo", 0, 0, 5, 5⟩, ⟨1, "done", 0, 2, 5, 5⟩]).rows
      = [⟨1, "done", 0, 2, 5, 5⟩, ⟨2, "todo", 0, 0, 5, 5⟩] ∧
    (⟨1, "done", 0, 2, 5, 5⟩ : Row).status = Status.COMPLETED.val ∧
    (⟨2, "todo", 0, 0, 5, 5⟩ : Row).status ≠ Status.COMPLETED.val ∧
    SortBy.CREATED_AT.key ⟨1, "done", 0, 2, 5, 5⟩
      = SortBy.CREATED_AT.key ⟨2, "todo", 0, 0, 5, 5⟩ := by
  decide

/-- C5 (corrected): every ORDER BY term carries the same direction suffix, so
the CASE tie-break (1 for HIGH-and-not-completed, 2 for everything else,
3 for COMPLETED) orders primary-key ties as the claim describes exactly
when the query direction is ASC, and is inverted — COMPLETED first — when
the direction is DESC. -/
theorem tiebreak_follows_direction (sb : SortBy) (a b : Row)
    (hkey : sb.key a = sb.key b) (hcase : caseRank a < caseRank b) :
    rowOrd sb false a b = .lt ∧ rowOrd sb true b a = .lt := by
  have h1 : cmpInt (sb.key a) (sb.key b) = .eq := by
    unfold cmpInt
    rw [hkey]
    simp
  have h2 : cmpInt (sb.key b) (sb.key a) = .eq := by
    unfold cmpInt
    rw [hkey]
    simp
  have h3 : cmpInt (caseRank a) (caseRank b) = .lt := by
    unfold cmpInt
    rw [if_pos hcase]
  have h4 : cmpInt (caseRank b) (caseRank a) = .gt := by
    unfold cmpInt
    rw [if_neg (by omega), if_neg (by omega)]
  constructor
  · unfold rowOrd
    rw [h1, h3]
    rfl
  · unfold rowOrd
    rw [h2, h4]
    rfl

/-- Closed instance of the corrected C5 tie-break theorem on two rows tied on
id, one HIGH-and-not-completed and one plain. -/
theorem tiebreak_follows_direction_witness :
    SortBy.ID.key ⟨7, "a", 2, 0, 0, 0⟩ = SortBy.ID.key ⟨7, "b", 0, 0, 0, 0⟩ ∧
    caseRank ⟨7, "a", 2, 0, 0, 0⟩ < caseRank ⟨7, "b", 0, 0, 0, 0⟩ ∧
    (rowOrd .ID false ⟨7, "a", 2, 0, 0, 0⟩ ⟨7, "b", 0, 0, 0, 0⟩ = .lt ∧
      rowOrd .ID true ⟨7, "b", 0, 0, 0, 0⟩ ⟨7, "a", 2, 0, 0, 0⟩ = .lt) :=
  ⟨by decide, by decide,
    tiebreak_follows_direction .ID ⟨7, "a", 2, 0, 0, 0⟩ ⟨7, "b", 0, 0, 0, 0⟩
      (by decide) (by decide)⟩

/-- C6 (counterexample): the ID column width is computed from the digit count
of the row COUNT, not from the widest id cell — a single row whose id is
100 yields width 2 while the max of header and cell lengths is 3. -/
theorem width_id_counterexample :
    width_id [⟨100, "x", .LOW, .PENDING, 0, 0⟩]
      ≠ specColWidth ("ID".length)
          ([(⟨100, "x", .LOW, .PENDING, 0, 0⟩ : Task)].map fun t =>
            (toString t.id).length) := by
  decide

/-- C6 (corrected): the Title, Priority and Status column widths equal the
max of the header label length and every cell's rendered length (the header
length alone for zero rows), and the two timestamp columns are fixed at 24
once a row exists and fall back to their header length otherwise; the ID
column width however is max(2, digit count of the row COUNT), independent
of the id cells. -/
theorem column_widths_spec (tasks : List Task) :
    width_title tasks = specColWidth ("Title".length) (tasks.map fun t => t.title.length) ∧
    width_priority tasks
      = specColWidth ("Priority".length) (tasks.map fun t => t.priority.name.length) ∧
    width_status tasks
      = specColWidth ("Status".length) (tasks.map fun t => t.status.name.length) ∧
    width_id tasks = max ("ID".length) ((toString tasks.length).length) ∧
    (0 < tasks.length → width_created_at tasks = 24 ∧ width_updated_at tasks = 24) ∧
    (tasks.length = 0 →
      width_title tasks = ("Title").length ∧
      width_id tasks = ("ID").length ∧
      width_created_at tasks = ("Created at").length ∧
      width_updated_at tasks = ("Updated at").length) := by
  refine ⟨rfl, rfl, rfl, rfl, ?_, ?_⟩
  · intro h
    constructor <;> simp [width_created_at, width_updated_at, h]
  · intro h
    have he : tasks = [] := List.length_eq_zero.mp h
    subst he
    exact ⟨rfl, rfl, rfl, rfl⟩

/-- Closed instance of the corrected C6 width theorem: one row forces the
timestamp width 24, zero rows fall back to header widths. -/
theorem column_widths_spec_witness :
    (0 < ([⟨1, "x", .LOW, .PENDING, 0, 0⟩] : List Task).length ∧
      (width_created_at [⟨1, "x", .LOW, .PENDING, 0, 0⟩] = 24 ∧
        width_updated_at [⟨1, "x", .LOW, .PENDING, 0, 0⟩] = 24)) ∧
    (([] : List Task).length = 0 ∧ width_title ([] : List Task) = ("Title").length) :=
  ⟨⟨by decide, (column_widths_spec [⟨1, "x", .LOW, .PENDING, 0, 0⟩]).2.2.2.2.1 (by decide)⟩,
    ⟨rfl, ((column_widths_spec ([] : List Task)).2.2.2.2.2 rfl).1⟩⟩

/-- C7 (confirmed): model construction from raw storage fields fails with a
ValidationError for any priority or status integer outside 0..2. -/
theorem from_data_rejects_out_of_range (id : Int) (title : String)
    (p s ca ua : Int) (h : p < 0 ∨ 2 < p ∨ s < 0 ∨ 2 < s) :
    ∃ e, Task.from_data id title p s ca ua = .error e := by
  unfold Task.from_data
  rcases h with h | h | h | h
  · rw [priority_ofInt_eq_none p (Or.inl h)]
    exact ⟨_, rfl⟩
  · rw [priority_ofInt_eq_none p (Or.inr h)]
    exact ⟨_, rfl⟩
  · cases hp : Priority.ofInt p with
    | none => exact ⟨_, rfl⟩
    | some pp =>
      rw [status_ofInt_eq_none s (Or.inl h)]
      exact ⟨_, rfl⟩
  · cases hp : Priority.ofInt p with
    | none => exact ⟨_, rfl⟩
    | some pp =>
      rw [status_ofInt_eq_none s (Or.inr h)]
      exact ⟨_, rfl⟩

/-- Closed instance of the C7 theorem at priority 3. -/
theorem from_data_rejects_out_of_range_witness :
    ((3 : Int) < 0 ∨ (2 : Int) < 3 ∨ (0 : Int) < 0 ∨ (2 : Int) < 0) ∧
    ∃ e, Task.from_data 1 "x" 3 0 0 0 = .error e :=
  ⟨by decide, from_data_rejects_out_of_range 1 "x" 3 0 0 0 (by decide)⟩

/-- C8 (confirmed): delete with an unmatched id reports not-found on stderr
and returns the store with every row in place; with a matching id it
removes the row and prints the task exactly as the row existed immediately
before removal. -/
theorem delete_spec (fmt : Int → String) (id : Int) (store : List Row) :
    (store.find? (fun r => r.id == id) = none →
      Delete.run fmt id store
        = .ok ⟨store, [], ["No task with ID " ++ toString id ++ " found\n"]⟩) ∧
    (∀ row task, store.find? (fun r => r.id == id) = some row →
      Task.from_data row.id row.title row.priority row.status
          row.created_at row.updated_at = .ok task →
      Delete.run fmt id store
        = .ok ⟨store.filter (fun r => !(r.id == id)), [.json (task.as_dict fmt)],
            ["Deleted task with ID " ++ toString id ++ "\n\n"]⟩ ∧
      task.id = row.id ∧ task.title = row.title ∧ task.priority.val = row.priority ∧
      task.status.val = row.status ∧ task.created_at = row.created_at ∧
      task.updated_at = row.updated_at) := by
  constructor
  · intro h
    unfold Delete.run
    rw [h]
  · intro row task hfind hdata
    have hfields := from_data_fields row.id row.title row.priority row.status
      row.created_at row.updated_at task hdata
    refine ⟨?_, hfields.1, hfields.2.1, hfields.2.2.1, hfields.2.2.2.1,
      hfields.2.2.2.2.1, hfields.2.2.2.2.2⟩
    unfold Delete.run
    rw [hfind]
    simp only [hdata]

/-- Closed instance of the C8 theorem: both the not-found branch (id 2) and
the removal branch (id 1) on a one-row store. -/
theorem delete_spec_witness :
    (([⟨1, "a", 0, 0, 5, 5⟩] : List Row).find? (fun r => r.id == 2) = none ∧
      Delete.run fmt0 2 [⟨1, "a", 0, 0, 5, 5⟩]
        = .ok ⟨[⟨1, "a", 0, 0, 5, 5⟩], [],
            ["No task with ID " ++ toString (2 : Int) ++ " found\n"]⟩) ∧
    Delete.run fmt0 1 [⟨1, "a", 0, 0, 5, 5⟩]
      = .ok ⟨([⟨1, "a", 0, 0, 5, 5⟩] : List Row).filter (fun r => !(r.id == 1)),
          [.json ((⟨1, "a", .LOW, .PENDING, 5, 5⟩ : Task).as_dict fmt0)],
          ["Deleted task with ID " ++ toString (1 : Int) ++ "\n\n"]⟩ :=
  ⟨⟨by decide, (delete_spec fmt0 2 [⟨1, "a", 0, 0, 5, 5⟩]).1 (by decide)⟩,
    ((delete_spec fmt0 1 [⟨1, "a", 0, 0, 5, 5⟩]).2 ⟨1, "a", 0, 0, 5, 5⟩
      ⟨1, "a", .LOW, .PENDING, 5, 5⟩ (by decide) (by decide)).1⟩

/-- C9 (confirmed): the listing query without --all returns exactly the
stored rows whose status is not COMPLETED; with --all every stored row is
returned. -/
theorem list_show_all_membership (cmd : ListCmd) (store : List Row) (r : Row) :
    (cmd.show_all = false →
      (r ∈ (cmd.run store).rows ↔ r ∈ store ∧ r.status ≠ Status.COMPLETED.val)) ∧
    (cmd.show_all = true → (r ∈ (cmd.run store).rows ↔ r ∈ store)) := by
  unfold ListCmd.run
  by_cases hsb : cmd.sort_by = SortBy.PRIORITY <;>
    constructor <;> intro h <;>
      simp [hsb, h, mem_orderRows, List.mem_filter]

/-- Closed instance of the C9 theorem: a COMPLETED row is excluded without
the all flag and included with it. -/
theorem list_show_all_membership_witness :
    ((⟨SortBy.ID, false, false, false⟩ : ListCmd).show_all = false ∧
      (⟨1, "a", 0, 2, 5, 5⟩ ∈ ((⟨SortBy.ID, false, false, false⟩ : ListCmd).run
          [⟨1, "a", 0, 2, 5, 5⟩]).rows
        ↔ ⟨1, "a", 0, 2, 5, 5⟩ ∈ ([⟨1, "a", 0, 2, 5, 5⟩] : List Row) ∧
          (⟨1, "a", 0, 2, 5, 5⟩ : Row).status ≠ Status.COMPLETED.val)) ∧
    ((⟨SortBy.ID, false, false, true⟩ : ListCmd).show_all = true ∧
      (⟨1, "a", 0, 2, 5, 5⟩ ∈ ((⟨SortBy.ID, false, false, true⟩ : ListCmd).run
          [⟨1, "a", 0, 2, 5, 5⟩]).rows
        ↔ ⟨1, "a", 0, 2, 5, 5⟩ ∈ ([⟨1, "a", 0, 2, 5, 5⟩] : List Row))) :=
  ⟨⟨rfl, (list_show_all_membership ⟨SortBy.ID, false, false, false⟩
      [⟨1, "a", 0, 2, 5, 5⟩] ⟨1, "a", 0, 2, 5, 5⟩).1 rfl⟩,
    ⟨rfl, (list_show_all_membership ⟨SortBy.ID, false, false, true⟩
      [⟨1, "a", 0, 2, 5, 5⟩] ⟨1, "a", 0, 2, 5, 5⟩).2 rfl⟩⟩

/-- C10 (confirmed): executing the list subcommand with sort key priority is
not idempotent on the request object — the run negates the stored reverse
field before building the query, so the same request value run twice issues
queries of opposite directions, only the first reflecting the flags as the
code intends them. -/
theorem list_run_not_idempotent (cmd : ListCmd) (store : List Row)
    (h : cmd.sort_by = SortBy.PRIORITY) :
    (cmd.run store).self.reverse = !cmd.reverse ∧
    (cmd.run store).desc = !cmd.reverse ∧
    ((cmd.run store).self.run store).desc = cmd.reverse := by
  unfold ListCmd.run
  simp [h]

/-- Closed instance of the C10 theorem on a priority-sorted request. -/
theorem list_run_not_idempotent_witness :
    (⟨SortBy.PRIORITY, false, false, false⟩ : ListCmd).sort_by = SortBy.PRIORITY ∧
    (((⟨SortBy.PRIORITY, false, false, false⟩ : ListCmd).run []).self.reverse = !false ∧
      ((⟨SortBy.PRIORITY, false, false, false⟩ : ListCmd).run []).desc = !false ∧
      (((⟨SortBy.PRIORITY, false, false, false⟩ : ListCmd).run []).self.run []).desc = false) :=
  ⟨rfl, list_run_not_idempotent ⟨SortBy.PRIORITY, false, false, false⟩ [] rfl⟩

end Todo
